import Mathlib

/-!
Verification development for the Telegram-to-Google-Drive relay bot
(src/bot.py). The Python module is shallowly embedded: module-level
environment validation, the upload adapter and the message handler become
pure Lean functions over an oracle environment describing the behaviour of
the external chat gateway and storage provider during one pipeline
execution. Each handler run produces a trace of observable events
(gateway calls, temp-file lifecycle, provider calls, replies) plus the
exception, if any, escaping the handler.
-/

namespace GDriveBot

/-- Python exceptions relevant to the bot: the Drive client HttpError
(carrying an HTTP status and reason), a generic Exception with a message,
and the TypeError raised by a membership test on None. -/
inductive PyError where
  | httpError (status : Nat) (reason : String)
  | exn (msg : String)
  | typeError (msg : String)
deriving DecidableEq, Repr

/-- Python str(e) for the errors above, as used in the failure reply. -/
def pyStr : PyError → String
  | .httpError status reason => "<HttpError " ++ toString status ++ ": " ++ reason ++ ">"
  | .exn m => m
  | .typeError m => m

/-- The metadata dict passed to the Drive files().create call
(bot.py lines 57-60): display name and parent folder list. -/
structure FileMetadata where
  name : String
  parents : List String
deriving DecidableEq, Repr

/-- The three environment variables read at module load
(bot.py lines 19-21); os.environ.get returns None when the key is unset. -/
structure EnvVars where
  TELEGRAM_TOKEN : Option String
  GOOGLE_SERVICE_ACCOUNT_JSON : Option String
  GOOGLE_DRIVE_FOLDER_ID : Option String
deriving DecidableEq, Repr

/-- Outcome of module initialisation: either the module loads (and the
process can start polling) or an exception aborts startup. -/
inductive StartupResult where
  | started
  | failed (msg : String)
deriving DecidableEq, Repr

/-- Python truthiness of an optional string: None and the empty string
are falsy, every other string is truthy. -/
def truthyStr : Option String → Bool
  | none => false
  | some s => decide (s ≠ "")

/-- Module-level initialisation of bot.py (lines 19-42): each of the three
environment variables is validated with a RuntimeError when falsy, then the
service-account JSON is parsed; jsonOk is an oracle for whether
json.loads succeeds on the credential string. -/
def moduleInit (e : EnvVars) (jsonOk : Bool) : StartupResult :=
  if !truthyStr e.TELEGRAM_TOKEN then
    .failed "TELEGRAM_TOKEN environment variable not set!"
  else if !truthyStr e.GOOGLE_SERVICE_ACCOUNT_JSON then
    .failed "GOOGLE_SERVICE_ACCOUNT_JSON environment variable not set!"
  else if !truthyStr e.GOOGLE_DRIVE_FOLDER_ID then
    .failed "GOOGLE_DRIVE_FOLDER_ID environment variable not set!"
  else if !jsonOk then
    .failed "service account JSON failed to parse"
  else .started

/-- A Telegram document attachment: file id plus optional declared name. -/
structure DocumentObj where
  file_id : String
  file_name : Option String
deriving DecidableEq, Repr

/-- One size variant of a Telegram photo; photos carry no declared name. -/
structure PhotoSize where
  file_id : String
deriving DecidableEq, Repr

/-- A Telegram video attachment: file id plus optional declared name. -/
structure VideoObj where
  file_id : String
  file_name : Option String
deriving DecidableEq, Repr

/-- A Telegram audio attachment: file id plus optional declared name. -/
structure AudioObj where
  file_id : String
  file_name : Option String
deriving DecidableEq, Repr

/-- An inbound Telegram message as handle_file sees it: each attachment
slot is optional, and photo is a list of size variants (empty when the
message carries no photo). -/
structure Message where
  document : Option DocumentObj
  photo : List PhotoSize
  video : Option VideoObj
  audio : Option AudioObj
deriving DecidableEq, Repr

/-- Observable actions of one pipeline execution, in order. getFile,
tempCreate and download are recorded when the action completes;
svcBuild, createCall and permCall record provider calls when issued,
whether or not the provider then fails; reply and tempRemove always
complete in the model (the gateway accepts replies, os.remove succeeds). -/
inductive Event where
  | getFile (fileId : String)
  | tempCreate
  | download (fileId : String)
  | svcBuild
  | createCall (meta : FileMetadata)
  | permCall (fileId : String)
  | reply (text : String)
  | tempRemove
deriving DecidableEq, Repr

/-- Oracle for the external world during one pipeline execution: the
result of each gateway call (get_file, NamedTemporaryFile,
download_to_drive), of building the Drive service, of the files().create
call (returning the new object id on success) and of the
permissions().create call; tempPath is the temp-file path the OS hands
out. -/
structure Env where
  tempPath : String
  getFileResult : Except PyError Unit
  tempResult : Except PyError Unit
  downloadResult : Except PyError Unit
  serviceResult : Except PyError Unit
  createResult : Except PyError String
  permResult : Except PyError Unit

/-- Extension part of os.path.splitext for a plain file name (no path
separators): the extension starts at the last dot, unless every character
before that dot is itself a dot (leading dots are not extensions). -/
def splitextExt (s : String) : String :=
  let cs := s.toList
  match (List.range cs.length).filter (fun i => cs.getD i ' ' = '.') |>.getLast? with
  | none => ""
  | some i => if (cs.take i).all (fun c => c = '.') then ""
              else String.mk (cs.drop i)

/-- Python x or y for an optional string x: y when x is None or empty. -/
def orName : Option String → String → String
  | none, dflt => dflt
  | some s, dflt => if s = "" then dflt else s

/-- upload_to_drive (bot.py lines 53-86): builds the Drive service,
creates the object with the given name filed under folderId, grants the
anyone-reader permission, and returns the view URL built from the
returned object id. An HttpError from any step is re-raised as a generic
Exception carrying the status and reason; any other exception is
re-raised unchanged. Returns the list of provider calls issued and the
result. -/
def upload_to_drive (env : Env) (folderId : String) (file_path file_name : String) :
    List Event × Except PyError String :=
  let _ := file_path
  let raw : List Event × Except PyError String :=
    match env.serviceResult with
    | .error e => ([.svcBuild], .error e)
    | .ok _ =>
      let meta : FileMetadata := { name := file_name, parents := [folderId] }
      match env.createResult with
      | .error e => ([.svcBuild, .createCall meta], .error e)
      | .ok file_id =>
        match env.permResult with
        | .error e => ([.svcBuild, .createCall meta, .permCall file_id], .error e)
        | .ok _ =>
          ([.svcBuild, .createCall meta, .permCall file_id],
            .ok ("https://drive.google.com/file/d/" ++ file_id ++ "/view"))
  match raw with
  | (evs, .error (.httpError s r)) =>
      (evs, .error (.exn ("Drive API error: " ++ toString s ++ " - " ++ r)))
  | other => other

/-- The if/elif chain of handle_file (bot.py lines 96-114): returns the
file id that will be fetched and the original_name value (None exactly
when a document has no declared name), or none when no recognized
attachment is present. Mirrors Python truthiness: an empty photo list and
a None slot are both falsy, and the video/audio fallback also triggers on
an empty declared name. -/
def branchInfo (msg : Message) : Option (String × Option String) :=
  match msg.document with
  | some doc => some (doc.file_id, doc.file_name)
  | none =>
    match msg.photo.getLast? with
    | some p => some (p.file_id, some ("photo_" ++ p.file_id ++ ".jpg"))
    | none =>
      match msg.video with
      | some v => some (v.file_id, some (orName v.file_name ("video_" ++ v.file_id ++ ".mp4")))
      | none =>
        match msg.audio with
        | some a => some (a.file_id, some (orName a.file_name ("audio_" ++ a.file_id ++ ".mp3")))
        | none => none

/-- The filename the pipeline resolves for a message, when one exists. -/
def resolvedName (msg : Message) : Option String :=
  (branchInfo msg).bind (fun x => x.2)

/-- Result of one handler invocation: the ordered event trace and the
exception escaping the handler, if any. -/
structure Outcome where
  events : List Event
  uncaught : Option PyError
deriving DecidableEq, Repr

/-- The texts of the replies sent during the execution, in order. -/
def Outcome.replies (o : Outcome) : List String :=
  o.events.filterMap (fun e => match e with | .reply s => some s | _ => none)

/-- Whether a temp file was created on disk during the execution. -/
def Outcome.tempCreated (o : Outcome) : Bool :=
  o.events.contains .tempCreate

/-- How many times the temp file was removed during the execution. -/
def Outcome.tempRemovals (o : Outcome) : Nat :=
  o.events.count .tempRemove

/-- Whether any network call to the storage provider was issued. -/
def Outcome.storageCalled (o : Outcome) : Bool :=
  o.events.any (fun e => match e with
    | .svcBuild => true
    | .createCall _ => true
    | .permCall _ => true
    | _ => false)

/-- handle_file (bot.py lines 92-139): resolve the attachment branch,
fetch the file handle from the gateway, resolve original_name (a document
without a declared name makes the membership test on None at line 117
raise TypeError), create the temp file, download into it, then try the
upload, replying with the success or failure template, and finally remove
the temp file. The get_file, temp-creation and download steps sit outside
the try, so their exceptions escape the handler. -/
def handle_file (folderId : String) (env : Env) (msg : Message) : Outcome :=
  match branchInfo msg with
  | none =>
      { events := [.reply "❌ Unsupported file type!"], uncaught := none }
  | some (fid, origName) =>
    match env.getFileResult with
    | .error e => { events := [], uncaught := some e }
    | .ok _ =>
      match origName with
      | none =>
          { events := [.getFile fid],
            uncaught := some (.typeError "argument of type NoneType is not iterable") }
      | some name =>
        let _suffix : String := if name.contains '.' then splitextExt name else ""
        match env.tempResult with
        | .error e => { events := [.getFile fid], uncaught := some e }
        | .ok _ =>
          match env.downloadResult with
          | .error e =>
              { events := [.getFile fid, .tempCreate], uncaught := some e }
          | .ok _ =>
            let up := upload_to_drive env folderId env.tempPath name
            let replyText :=
              match up.2 with
              | .ok link =>
                  "✅ File uploaded to Google Drive!\n\n📄 Filename: " ++ name ++
                  "\n🔗 Download link: " ++ link
              | .error e => "❌ Upload failed: " ++ pyStr e
            { events := [.getFile fid, .tempCreate, .download fid] ++ up.1 ++
                        [.reply replyText, .tempRemove],
              uncaught := none }

/-- The message filter registered in main (bot.py lines 144-147):
Document.ALL, PHOTO, VIDEO or AUDIO. A message matching none of these is
never delivered to handle_file. -/
def filterMatches (msg : Message) : Bool :=
  msg.document.isSome || !msg.photo.isEmpty || msg.video.isSome || msg.audio.isSome

/-- Dispatch of one inbound non-command message by the application built
in main: handle_file runs only when the registered filter matches;
otherwise no handler is invoked and nothing happens. -/
def dispatchMessage (folderId : String) (env : Env) (msg : Message) : Outcome :=
  if filterMatches msg then handle_file folderId env msg
  else { events := [], uncaught := none }

/-! Concrete fixtures used by counterexamples and witnesses. -/

/-- An oracle environment in which every external call succeeds and the
provider assigns object id abc123. -/
def envAllOk : Env :=
  { tempPath := "/tmp/tmp1234",
    getFileResult := .ok (), tempResult := .ok (), downloadResult := .ok (),
    serviceResult := .ok (), createResult := .ok "abc123", permResult := .ok () }

/-- An oracle environment in which the download from the gateway fails. -/
def envDownloadFail : Env :=
  { envAllOk with downloadResult := .error (.exn "Timed out") }

/-- An environment in which the permission grant fails after creation. -/
def envPermFail : Env :=
  { envAllOk with permResult := .error (.httpError 403 "insufficientPermissions") }

/-- An environment in which the create call hits a quota error. -/
def envQuotaFail : Env :=
  { envAllOk with createResult := .error (.httpError 403 "quotaExceeded") }

/-- A document message named report.pdf. -/
def msgDoc : Message :=
  { document := some { file_id := "doc1", file_name := some "report.pdf" },
    photo := [], video := none, audio := none }

/-- A document message with no declared filename. -/
def msgDocNoName : Message :=
  { document := some { file_id := "doc2", file_name := none },
    photo := [], video := none, audio := none }

/-- A text-only message: no attachment of any recognized kind. -/
def msgTextOnly : Message :=
  { document := none, photo := [], video := none, audio := none }

/-- A photo message with two size variants, the last being big2. -/
def msgTwoPhotos : Message :=
  { document := none, photo := [{ file_id := "small1" }, { file_id := "big2" }],
    video := none, audio := none }

/-- A photo message with the single variant xyz789. -/
def msgPhotoXyz : Message :=
  { document := none, photo := [{ file_id := "xyz789" }],
    video := none, audio := none }

/-! Helper lemmas about the upload-adapter event trace. -/

/-- The provider-call trace of upload_to_drive has one of three shapes:
service build only, build then create, or build then create then
permission grant. -/
theorem upload_events_forms (env : Env) (folderId fp fn : String) :
    (upload_to_drive env folderId fp fn).1 = [.svcBuild] ∨
    (∃ m, (upload_to_drive env folderId fp fn).1 = [.svcBuild, .createCall m]) ∨
    (∃ m i, (upload_to_drive env folderId fp fn).1 =
      [.svcBuild, .createCall m, .permCall i]) := by
  unfold upload_to_drive
  rcases hs : env.serviceResult with e | u
  · rcases e with ⟨s, r⟩ | m | m <;> simp [hs]
  · rcases hc : env.createResult with e | id
    · rcases e with ⟨s, r⟩ | m | m <;> simp [hs, hc]
    · rcases hp : env.permResult with e | u2
      · rcases e with ⟨s, r⟩ | m | m <;> simp [hs, hc, hp]
      · simp [hs, hc, hp]

/-- The upload adapter never removes the temp file itself. -/
theorem upload_events_no_tempRemove (env : Env) (folderId fp fn : String) :
    (upload_to_drive env folderId fp fn).1.count Event.tempRemove = 0 := by
  rcases upload_events_forms env folderId fp fn with h | ⟨m, h⟩ | ⟨m, i, h⟩ <;>
    simp [h, List.count_cons]

/-- The upload adapter sends no replies itself. -/
theorem upload_events_no_reply (env : Env) (folderId fp fn : String) :
    (upload_to_drive env folderId fp fn).1.filterMap
      (fun e => match e with | Event.reply s => some s | _ => none) = [] := by
  rcases upload_events_forms env folderId fp fn with h | ⟨m, h⟩ | ⟨m, i, h⟩ <;>
    simp [h]

/-! Claim C1: temp-file cleanup. -/

/-- C1 counterexample: the claim says the temp file is deleted on every
failure path, including a failure while downloading the file from the
chat gateway; but for a document message when download_to_drive raises,
the temp file has been created and is never removed (the download sits
outside the try/finally of bot.py lines 126-139). -/
theorem c1_download_failure_leaks_temp :
    (handle_file "folder1" envDownloadFail msgDoc).tempCreated = true ∧
    (handle_file "folder1" envDownloadFail msgDoc).tempRemovals = 0 := by decide

/-- C1 (amended): once the download into the temp file succeeds, the temp
file is removed exactly once, as the last action of the pipeline, after
the upload step has returned (successfully or not) and the reply was
sent; but a failure of the download (or of temp creation) skips cleanup. -/
theorem c1_cleanup_after_download (folderId : String) (env : Env) (msg : Message)
    (fid name : String)
    (hb : branchInfo msg = some (fid, some name))
    (hg : env.getFileResult = .ok ())
    (ht : env.tempResult = .ok ())
    (hd : env.downloadResult = .ok ()) :
    (handle_file folderId env msg).tempRemovals = 1 ∧
    (handle_file folderId env msg).events.getLast? = some Event.tempRemove ∧
    (handle_file folderId env msg).uncaught = none := by
  simp only [handle_file, hb, hg, ht, hd]
  refine ⟨?_, ?_, trivial⟩
  · simp [Outcome.tempRemovals, List.count_append, List.count_cons,
      upload_events_no_tempRemove]
  · rw [List.getLast?_append_cons]
    simp

/-- C1 witness: the amended cleanup theorem applied to a successful
document pipeline. -/
theorem c1_cleanup_witness :
    (handle_file "folder1" envAllOk msgDoc).tempRemovals = 1 :=
  (c1_cleanup_after_download "folder1" envAllOk msgDoc "doc1" "report.pdf"
    (by decide) rfl rfl rfl).1

/-! Claim C3: one reply per event, errors contained at the handler. -/

/-- C3 counterexample: the claim says exactly one reply is sent for every
inbound file event, with every per-event error converted to a failure
reply at the handler boundary; but when the gateway download raises, the
handler sends no reply at all and the exception escapes handle_file. -/
theorem c3_download_failure_no_reply :
    (handle_file "folder1" envDownloadFail msgDoc).replies = [] ∧
    (handle_file "folder1" envDownloadFail msgDoc).uncaught =
      some (.exn "Timed out") := by decide

/-- C3 (amended): the handler sends exactly one reply precisely on the
executions it completes without an escaping exception (the unsupported
branch, the success path, and errors raised inside the upload step, which
the try/except converts to a failure reply); an error in get_file,
filename resolution, temp creation or download escapes the handler with
no reply sent, and is contained only by the surrounding framework. -/
theorem c3_one_reply_iff_contained (folderId : String) (env : Env) (msg : Message) :
    ((handle_file folderId env msg).uncaught = none →
      (handle_file folderId env msg).replies.length = 1) ∧
    ((handle_file folderId env msg).uncaught ≠ none →
      (handle_file folderId env msg).replies = []) := by
  rcases hb : branchInfo msg with _ | ⟨fid, origName⟩
  · simp [handle_file, hb, Outcome.replies]
  · rcases hg : env.getFileResult with e | u
    · simp [handle_file, hb, hg, Outcome.replies]
    · rcases origName with _ | name
      · simp [handle_file, hb, hg, Outcome.replies]
      · rcases ht : env.tempResult with e | u2
        · simp [handle_file, hb, hg, ht, Outcome.replies]
        · rcases hd : env.downloadResult with e | u3
          · simp [handle_file, hb, hg, ht, hd, Outcome.replies]
          · simp [handle_file, hb, hg, ht, hd, Outcome.replies,
              List.filterMap_append, upload_events_no_reply]

/-- C3 witness: a successful document pipeline sends exactly one reply. -/
theorem c3_one_reply_witness :
    (handle_file "folder1" envAllOk msgDoc).replies.length = 1 :=
  (c3_one_reply_iff_contained "folder1" envAllOk msgDoc).1 (by decide)

/-! Claim C2: the folder id configuration key. -/

/-- Environment variables with both credentials set but no folder id. -/
def envVarsNoFolder : EnvVars :=
  { TELEGRAM_TOKEN := some "123:ABC",
    GOOGLE_SERVICE_ACCOUNT_JSON := some "valid-service-account-json",
    GOOGLE_DRIVE_FOLDER_ID := none }

/-- C2 counterexample: the claim says the container identifier is
optional and the process starts without it when both credentials are
present and well-formed; but module initialisation raises a RuntimeError
whenever GOOGLE_DRIVE_FOLDER_ID is unset (bot.py lines 27-28), so the
process never starts. -/
theorem c2_folder_id_missing_fatal :
    moduleInit envVarsNoFolder true =
      .failed "GOOGLE_DRIVE_FOLDER_ID environment variable not set!" := by decide

/-- Module initialisation succeeds exactly when the three environment
variables are truthy and the credential JSON parses. -/
theorem moduleInit_started_iff (e : EnvVars) (jsonOk : Bool) :
    moduleInit e jsonOk = .started ↔
      truthyStr e.TELEGRAM_TOKEN = true ∧
      truthyStr e.GOOGLE_SERVICE_ACCOUNT_JSON = true ∧
      truthyStr e.GOOGLE_DRIVE_FOLDER_ID = true ∧ jsonOk = true := by
  rcases h1 : truthyStr e.TELEGRAM_TOKEN with _ | _ <;>
    rcases h2 : truthyStr e.GOOGLE_SERVICE_ACCOUNT_JSON with _ | _ <;>
      rcases h3 : truthyStr e.GOOGLE_DRIVE_FOLDER_ID with _ | _ <;>
        rcases jsonOk with _ | _ <;>
          simp [moduleInit, h1, h2, h3]

/-- Every create call issued by the upload adapter carries the given
display name and exactly the configured folder as parent. -/
theorem upload_createCall_meta (env : Env) (folderId fp fn : String)
    (meta : FileMetadata)
    (hmem : Event.createCall meta ∈ (upload_to_drive env folderId fp fn).1) :
    meta = { name := fn, parents := [folderId] } := by
  unfold upload_to_drive at hmem
  rcases hs : env.serviceResult with e | u
  · rcases e with ⟨s, r⟩ | m | m <;> simp [hs] at hmem
  · rcases hc : env.createResult with e | id
    · rcases e with ⟨s, r⟩ | m | m <;> simp [hs, hc] at hmem <;> exact hmem
    · rcases hp : env.permResult with e | u2
      · rcases e with ⟨s, r⟩ | m | m <;> simp [hs, hc, hp] at hmem <;> exact hmem
      · simp [hs, hc, hp] at hmem
        exact hmem

/-- C2 (amended): the container identifier is a required configuration
key: startup succeeds only when it is set and non-empty, it fails
outright when the key is absent, and every files().create call issued by
the upload adapter files the object under the configured folder (there is
no default-location path). -/
theorem c2_folder_id_required (e : EnvVars) (jsonOk : Bool) :
    (moduleInit e jsonOk = .started →
      truthyStr e.GOOGLE_DRIVE_FOLDER_ID = true) ∧
    (e.GOOGLE_DRIVE_FOLDER_ID = none → moduleInit e jsonOk ≠ .started) ∧
    (∀ env folderId fp fn meta,
      Event.createCall meta ∈ (upload_to_drive env folderId fp fn).1 →
      meta.parents = [folderId]) := by
  refine ⟨?_, ?_, ?_⟩
  · intro h
    exact ((moduleInit_started_iff e jsonOk).mp h).2.2.1
  · intro hnone h
    have h3 := ((moduleInit_started_iff e jsonOk).mp h).2.2.1
    rw [hnone] at h3
    simp [truthyStr] at h3
  · intro env folderId fp fn meta hmem
    rw [upload_createCall_meta env folderId fp fn meta hmem]

/-- C2 witness: the required-key theorem applied to the concrete
environment missing only the folder id. -/
theorem c2_folder_id_required_witness :
    moduleInit envVarsNoFolder true ≠ .started :=
  (c2_folder_id_required envVarsNoFolder true).2.1 rfl

/-! Claim C4: messages with no recognized attachment. -/

/-- C4 counterexample: the claim says the system replies with the fixed
unsupported-file-type message on a text-only message; but the message
filter registered in main does not match such a message, handle_file is
never invoked, and no reply at all is sent (no storage call either). -/
theorem c4_text_only_gets_no_reply :
    (dispatchMessage "folder1" envAllOk msgTextOnly).replies ≠
      ["❌ Unsupported file type!"] ∧
    (dispatchMessage "folder1" envAllOk msgTextOnly).replies = [] ∧
    (dispatchMessage "folder1" envAllOk msgTextOnly).storageCalled = false := by
  decide

/-- C4 (amended): a message matching no recognized attachment kind is
filtered out before the handler: no handler runs, no reply is sent and no
storage-provider call is made; the unsupported-file-type branch of
handle_file is unreachable through the dispatcher, since the registered
filter matches exactly when some attachment branch matches. -/
theorem c4_unmatched_filter_silent (folderId : String) (env : Env) (msg : Message) :
    (filterMatches msg = false →
      dispatchMessage folderId env msg = { events := [], uncaught := none }) ∧
    (filterMatches msg = false ↔ branchInfo msg = none) := by
  constructor
  · intro h
    simp [dispatchMessage, h]
  · rcases msg with ⟨doc, photo, video, audio⟩
    rcases photo with _ | ⟨p, ps⟩
    · rcases doc with _ | d <;> rcases video with _ | v <;> rcases audio with _ | a <;>
        simp [filterMatches, branchInfo]
    · rcases doc with _ | d <;> rcases video with _ | v <;> rcases audio with _ | a <;>
        simp [filterMatches, branchInfo,
          List.getLast?_eq_getLast_of_ne_nil (List.cons_ne_nil p ps)]

/-- C4 witness: the silent-filter theorem applied to a concrete text-only
message. -/
theorem c4_unmatched_filter_witness :
    dispatchMessage "folder1" envAllOk msgTextOnly =
      { events := [], uncaught := none } :=
  (c4_unmatched_filter_silent "folder1" envAllOk msgTextOnly).1 rfl

/-! Claim C5: filename resolution policy. -/

/-- A three-part concatenation with a nonempty first part is nonempty. -/
theorem append3_ne_empty (pre mid suf : String) (h : 0 < pre.length) :
    pre ++ mid ++ suf ≠ "" := by
  intro hc
  have hl := congrArg String.length hc
  rw [String.length_append, String.length_append] at hl
  rw [String.length_empty] at hl
  omega

/-- C5: the resolved filename follows the priority order of bot.py lines
96-111: the platform-declared filename when one is present, otherwise the
synthesized kind-id-extension name with jpg for photo, mp4 for video and
mp3 for audio; a photo with id xyz789 resolves to photo_xyz789.jpg; and
whenever the gateway never declares an empty-string filename, every
resolved filename is non-empty. -/
theorem c5_filename_resolution :
    (∀ msg d n, msg.document = some d → d.file_name = some n →
       resolvedName msg = some n) ∧
    (∀ msg p, msg.document = none → msg.photo.getLast? = some p →
       resolvedName msg = some ("photo_" ++ p.file_id ++ ".jpg")) ∧
    (∀ msg v n, msg.document = none → msg.photo = [] → msg.video = some v →
       v.file_name = some n → n ≠ "" → resolvedName msg = some n) ∧
    (∀ msg v, msg.document = none → msg.photo = [] → msg.video = some v →
       v.file_name = none →
       resolvedName msg = some ("video_" ++ v.file_id ++ ".mp4")) ∧
    (∀ msg a n, msg.document = none → msg.photo = [] → msg.video = none →
       msg.audio = some a → a.file_name = some n → n ≠ "" →
       resolvedName msg = some n) ∧
    (∀ msg a, msg.document = none → msg.photo = [] → msg.video = none →
       msg.audio = some a → a.file_name = none →
       resolvedName msg = some ("audio_" ++ a.file_id ++ ".mp3")) ∧
    resolvedName msgPhotoXyz = some "photo_xyz789.jpg" ∧
    (∀ msg n, (∀ d, msg.document = some d → d.file_name ≠ some "") →
       resolvedName msg = some n → n ≠ "") := by
  refine ⟨?_, ?_, ?_, ?_, ?_, ?_, by decide, ?_⟩
  · intro msg d n hd hn
    simp [resolvedName, branchInfo, hd, hn]
  · intro msg p hd hp
    simp [resolvedName, branchInfo, hd, hp]
  · intro msg v n hd hp hv hn hne
    simp [resolvedName, branchInfo, hd, hp, hv, hn, orName, hne]
  · intro msg v hd hp hv hn
    simp [resolvedName, branchInfo, hd, hp, hv, hn, orName]
  · intro msg a n hd hp hv ha hn hne
    simp [resolvedName, branchInfo, hd, hp, hv, ha, hn, orName, hne]
  · intro msg a hd hp hv ha hn
    simp [resolvedName, branchInfo, hd, hp, hv, ha, hn, orName]
  · intro msg n hwf hres
    rcases hd : msg.document with _ | d
    · rcases hp : msg.photo.getLast? with _ | q
      · rcases hv : msg.video with _ | v
        · rcases ha : msg.audio with _ | a
          · simp [resolvedName, branchInfo, hd, hp, hv, ha] at hres
          · rcases hfn : a.file_name with _ | s
            · simp [resolvedName, branchInfo, hd, hp, hv, ha, hfn, orName] at hres
              rw [← hres]
              exact append3_ne_empty "audio_" a.file_id ".mp3" (by decide)
            · by_cases hse : s = ""
              · simp [resolvedName, branchInfo, hd, hp, hv, ha, hfn, orName, hse]
                  at hres
                rw [← hres]
                exact append3_ne_empty "audio_" a.file_id ".mp3" (by decide)
              · simp [resolvedName, branchInfo, hd, hp, hv, ha, hfn, orName, hse]
                  at hres
                rw [← hres]
                exact hse
        · rcases hfn : v.file_name with _ | s
          · simp [resolvedName, branchInfo, hd, hp, hv, hfn, orName] at hres
            rw [← hres]
            exact append3_ne_empty "video_" v.file_id ".mp4" (by decide)
          · by_cases hse : s = ""
            · simp [resolvedName, branchInfo, hd, hp, hv, hfn, orName, hse] at hres
              rw [← hres]
              exact append3_ne_empty "video_" v.file_id ".mp4" (by decide)
            · simp [resolvedName, branchInfo, hd, hp, hv, hfn, orName, hse] at hres
              rw [← hres]
              exact hse
      · simp [resolvedName, branchInfo, hd, hp] at hres
        rw [← hres]
        exact append3_ne_empty "photo_" q.file_id ".jpg" (by decide)
    · simp [resolvedName, branchInfo, hd] at hres
      intro hc
      rw [hc] at hres
      exact hwf d hd hres

/-- A video message with the declared name clip.mp4. -/
def msgVideoNamed : Message :=
  { document := none, photo := [],
    video := some { file_id := "vid1", file_name := some "clip.mp4" },
    audio := none }

/-- C5 witness: a video with a declared name resolves to that name. -/
theorem c5_filename_witness :
    resolvedName msgVideoNamed = some "clip.mp4" :=
  c5_filename_resolution.2.2.1 msgVideoNamed
    { file_id := "vid1", file_name := some "clip.mp4" }
    "clip.mp4" rfl rfl rfl rfl (by decide)

/-! Claim C6: the returned URL and its precondition. -/

/-- C6: the upload adapter returns a URL only when the create call
succeeded with some object id and the permission grant then succeeded,
the URL is exactly the fixed template around that id, and the permission
call is the last provider call issued before returning. -/
theorem c6_url_after_permission (env : Env) (folderId fp fn url : String)
    (h : (upload_to_drive env folderId fp fn).2 = .ok url) :
    ∃ id, env.createResult = .ok id ∧ env.permResult = .ok () ∧
      url = "https://drive.google.com/file/d/" ++ id ++ "/view" ∧
      (upload_to_drive env folderId fp fn).1.getLast? =
        some (.permCall id) := by
  rcases hs : env.serviceResult with e | u
  · rcases e with ⟨s, r⟩ | m | m <;> simp [upload_to_drive, hs] at h
  · rcases hc : env.createResult with e | id
    · rcases e with ⟨s, r⟩ | m | m <;> simp [upload_to_drive, hs, hc] at h
    · rcases hp : env.permResult with e | u2
      · rcases e with ⟨s, r⟩ | m | m <;> simp [upload_to_drive, hs, hc, hp] at h
      · refine ⟨id, rfl, by simp [hp], ?_, ?_⟩
        · simp [upload_to_drive, hs, hc, hp] at h
          exact h.symm
        · simp [upload_to_drive, hs, hc, hp]

/-- C6 witness: the template theorem applied to the all-success
environment with object id abc123. -/
theorem c6_url_after_permission_witness :
    ∃ id, envAllOk.createResult = .ok id ∧ envAllOk.permResult = .ok () ∧
      "https://drive.google.com/file/d/abc123/view" =
        "https://drive.google.com/file/d/" ++ id ++ "/view" ∧
      (upload_to_drive envAllOk "folder1" "/tmp/tmp1234" "report.pdf").1.getLast? =
        some (.permCall id) :=
  c6_url_after_permission envAllOk "folder1" "/tmp/tmp1234" "report.pdf"
    "https://drive.google.com/file/d/abc123/view" rfl

/-! Claim C7: permission-grant failure yields no URL. -/

/-- C7: whenever the create call succeeded but the permission grant
fails, the upload adapter raises (its result is an error), never
returning a URL for the not-yet-public object. -/
theorem c7_perm_failure_is_error (env : Env) (folderId fp fn id : String)
    (e : PyError) (hc : env.createResult = .ok id)
    (hp : env.permResult = .error e) :
    ∃ e2, (upload_to_drive env folderId fp fn).2 = .error e2 := by
  rcases hs : env.serviceResult with e1 | u
  · rcases e1 with ⟨s, r⟩ | m | m <;> simp [upload_to_drive, hs]
  · rcases e with ⟨s, r⟩ | m | m <;> simp [upload_to_drive, hs, hc, hp]

/-- C7 witness: a concrete permission failure after a successful create
produces an error result. -/
theorem c7_perm_failure_witness :
    ∃ e2, (upload_to_drive envPermFail "folder1" "/tmp/tmp1234" "report.pdf").2 =
      .error e2 :=
  c7_perm_failure_is_error envPermFail "folder1" "/tmp/tmp1234" "report.pdf"
    "abc123" (.httpError 403 "insufficientPermissions") rfl rfl

/-! Claim C8: documents without a declared filename fail. -/

/-- C8: for a document with no declared filename the pipeline raises (the
membership test on None) before any temp file is created and before any
storage-provider call; no reply is sent and no fallback name exists. -/
theorem c8_document_without_name_fails (folderId : String) (env : Env)
    (msg : Message) (d : DocumentObj)
    (hd : msg.document = some d) (hn : d.file_name = none) :
    (handle_file folderId env msg).uncaught.isSome = true ∧
    (handle_file folderId env msg).storageCalled = false ∧
    (handle_file folderId env msg).tempCreated = false ∧
    (handle_file folderId env msg).replies = [] ∧
    resolvedName msg = none := by
  have hb : branchInfo msg = some (d.file_id, d.file_name) := by
    simp [branchInfo, hd]
  rcases hg : env.getFileResult with e | u <;>
    simp [handle_file, hb, hn, hg, Outcome.replies, Outcome.storageCalled,
      Outcome.tempCreated, resolvedName]

/-- C8 witness: the no-name-document theorem at a concrete message. -/
theorem c8_document_without_name_witness :
    (handle_file "folder1" envAllOk msgDocNoName).uncaught.isSome = true :=
  (c8_document_without_name_fails "folder1" envAllOk msgDocNoName
    { file_id := "doc2", file_name := none } rfl rfl).1

/-! Claim C9: error normalization in the upload adapter. -/

/-- Whether an error is the provider-specific HttpError. -/
def PyError.isHttp : PyError → Bool
  | .httpError _ _ => true
  | _ => false

/-- C9: an HttpError from the create or permission call is re-raised as a
generic failure whose message carries the provider status code and reason
text; every other exception from those calls propagates unchanged with
its original message. -/
theorem c9_error_normalization (env : Env) (folderId fp fn : String) :
    (∀ s r, env.serviceResult = .ok () →
       env.createResult = .error (.httpError s r) →
       (upload_to_drive env folderId fp fn).2 =
         .error (.exn ("Drive API error: " ++ toString s ++ " - " ++ r))) ∧
    (∀ s r id, env.serviceResult = .ok () → env.createResult = .ok id →
       env.permResult = .error (.httpError s r) →
       (upload_to_drive env folderId fp fn).2 =
         .error (.exn ("Drive API error: " ++ toString s ++ " - " ++ r))) ∧
    (∀ e, e.isHttp = false → env.serviceResult = .ok () →
       env.createResult = .error e →
       (upload_to_drive env folderId fp fn).2 = .error e) ∧
    (∀ e id, e.isHttp = false → env.serviceResult = .ok () →
       env.createResult = .ok id → env.permResult = .error e →
       (upload_to_drive env folderId fp fn).2 = .error e) := by
  refine ⟨?_, ?_, ?_, ?_⟩
  · intro s r hs hc
    simp [upload_to_drive, hs, hc]
  · intro s r id hs hc hp
    simp [upload_to_drive, hs, hc, hp]
  · intro e he hs hc
    rcases e with ⟨s, r⟩ | m | m <;> simp [PyError.isHttp] at he <;>
      simp [upload_to_drive, hs, hc]
  · intro e id he hs hc hp
    rcases e with ⟨s, r⟩ | m | m <;> simp [PyError.isHttp] at he <;>
      simp [upload_to_drive, hs, hc, hp]

/-- C9 witness: a quota HttpError on create surfaces as the normalized
generic failure message. -/
theorem c9_error_normalization_witness :
    (upload_to_drive envQuotaFail "folder1" "/tmp/tmp1234" "report.pdf").2 =
      .error (.exn "Drive API error: 403 - quotaExceeded") :=
  (c9_error_normalization envQuotaFail "folder1" "/tmp/tmp1234" "report.pdf").1
    403 "quotaExceeded" rfl rfl

/-! Claim C10: the highest-resolution photo variant is selected. -/

/-- C10: for a photo message the handler selects the last element of the
photo-size list: that element is the one fetched from the gateway and
downloaded, and the synthesized filename is built from its file id. -/
theorem c10_photo_last_selected (msg : Message) (p : PhotoSize)
    (hd : msg.document = none) (hp : msg.photo.getLast? = some p) :
    branchInfo msg = some (p.file_id, some ("photo_" ++ p.file_id ++ ".jpg")) ∧
    resolvedName msg = some ("photo_" ++ p.file_id ++ ".jpg") ∧
    (∀ folderId env, env.getFileResult = .ok () →
      (handle_file folderId env msg).events.head? =
        some (.getFile p.file_id)) := by
  have hb : branchInfo msg = some (p.file_id, some ("photo_" ++ p.file_id ++ ".jpg")) := by
    simp [branchInfo, hd, hp]
  refine ⟨hb, by simp [resolvedName, hb], ?_⟩
  intro folderId env hg
  rcases ht : env.tempResult with e | u
  · simp [handle_file, hb, hg, ht]
  · rcases hdl : env.downloadResult with e | u2
    · simp [handle_file, hb, hg, ht, hdl]
    · simp [handle_file, hb, hg, ht, hdl]

/-- C10 witness: with two photo variants the last one, big2, is selected
and names the file. -/
theorem c10_photo_last_witness :
    branchInfo msgTwoPhotos = some ("big2", some "photo_big2.jpg") :=
  (c10_photo_last_selected msgTwoPhotos { file_id := "big2" } rfl (by decide)).1

end GDriveBot
